import Mathlib

/-!
Verification of the Ouroboros agent supervisor.

This file gives a shallow embedding of the supervisor subsystems of the
Ouroboros desktop agent and proves properties of the embedded operations.
The embedded pieces are:

* the two-layer LLM safety gate (`ouroboros/safety.py`, `check_safety`);
* the tool-registry dispatch (`ouroboros/tools/registry.py`,
  `ToolRegistry.execute`), including the static sandbox pre-check;
* the local message bus (`supervisor/message_bus.py`, `LocalChatBridge`
  and `split_message`);
* the supervisor main loop's crash handling, restart handling and owner
  registration (`server.py`, `_run_supervisor` and
  `_handle_restart_in_supervisor`);
* the restart exit-code contract between `server.py` and the launcher's
  `agent_lifecycle_loop` (`launcher.py`).

External effects (LLM round trips, JSON parsing of model replies, the
filesystem, subprocesses, git) are the environment: they enter the
embedding as explicit arguments describing their observed outcome, and
stateful Python objects become explicit state passing.  Python strings are
`String`, Python lists and `queue.Queue` buffers are `List`, and machine
integers stay in `Nat`/`Int` (no overflow is relevant here).
-/

namespace Ouroboros

/-- Python's `str.upper()` restricted to the ASCII case mapping, which is all
the source compares against (`"SAFE"`, `"SUSPICIOUS"`, `"DANGEROUS"`). -/
def pyUpper (s : String) : String := ⟨s.data.map Char.toUpper⟩

/-- Python's `str.lower()` restricted to the ASCII case mapping, as used on
tool-argument strings by the registry's static sandbox pre-check. -/
def pyLower (s : String) : String := ⟨s.data.map Char.toLower⟩

/-- Helper for substring containment: does `sub` occur as a contiguous run
inside `s` (list-of-characters view)?  Scans every suffix of `s`. -/
def listHas : List Char → List Char → Bool
  | _, [] => false
  | sub, c :: t => sub.isPrefixOf (c :: t) || listHas sub t

/-- Python's substring test `sub in s`.  The empty string is contained in
every string. -/
def pyIn (sub s : String) : Bool :=
  sub.data.isEmpty || listHas sub.data s.data

/-! ## Safety gate (`ouroboros/safety.py`) -/

/-- Tool names subject to the LLM safety gate: `CHECKED_TOOLS` in
`ouroboros/safety.py` lines 25-27. -/
def CHECKED_TOOLS : List String :=
  ["run_shell", "claude_code_edit", "repo_write_commit", "repo_commit", "drive_write"]

/-- Observed outcome of a single safety-LLM round trip, after
`_parse_safety_response` has been applied to the reply:

* `exn e` — the call (or anything else inside the `try` block) raised an
  exception whose string form is `e`;
* `unparseable` — the reply was returned but was not valid JSON
  (`_parse_safety_response` produced `None`);
* `parsed status reason` — a JSON object was parsed; `status` and `reason`
  are the values of `result.get("status", "")` and `result.get("reason", ...)`
  before upper-casing. -/
inductive ParseOutcome where
  | exn (e : String)
  | unparseable
  | parsed (status : String) (reason : String)
deriving DecidableEq

/-- Layer 2 of `check_safety` (`ouroboros/safety.py` lines 135-187): the deep
check on the heavy model.  Maps the observed outcome of the heavy-model round
trip to the returned `(bool, str)` pair, reproducing the source's strings. -/
def deepCheck (deep : ParseOutcome) : Bool × String :=
  match deep with
  | .exn e =>
      (false, "⚠️ SAFETY_VIOLATION: Safety check failed with error: " ++ e)
  | .unparseable =>
      (false, "⚠️ SAFETY_VIOLATION: Safety Supervisor returned unparseable response.")
  | .parsed status reason =>
      if pyUpper status = "SAFE" then (true, "")
      else if pyUpper status = "SUSPICIOUS" then
        (true,
          "⚠️ SAFETY_WARNING: The Safety Supervisor flagged this action as suspicious.\nReason: "
            ++ reason
            ++ "\nThe command was allowed, but consider whether this is the right approach.")
      else
        (false,
          "⚠️ SAFETY_VIOLATION: The Safety Supervisor blocked this command.\nReason: "
            ++ reason
            ++ "\n\nYou must find a different, safer approach to achieve your goal.")

/-- Did the fast (light-model) layer produce a parsed verdict whose
upper-cased status is `"SAFE"`?  Only in that case does `check_safety`
return early without consulting the heavy model (`safety.py` line 126). -/
def fastSaysSafe : ParseOutcome → Bool
  | .parsed status _ => pyUpper status == "SAFE"
  | .unparseable => false
  | .exn _ => false

/-- Shallow embedding of `check_safety` (`ouroboros/safety.py` lines 87-187).
The two LLM round trips are environment; their post-parse outcomes are the
`fast` and `deep` arguments.  A fast exception and a fast non-`SAFE` verdict
both fall through to the deep layer, exactly as in the source. -/
def check_safety (tool_name : String) (fast deep : ParseOutcome) : Bool × String :=
  if tool_name ∈ CHECKED_TOOLS then
    if fastSaysSafe fast then (true, "")
    else deepCheck deep
  else (true, "")

/-! ## Tool registry dispatch (`ouroboros/tools/registry.py`) -/

/-- Tool names named in the hardcoded sandbox pre-check tuple inside
`ToolRegistry.execute` (`registry.py` line 191); textually the same five
names as `CHECKED_TOOLS`. -/
def REGISTRY_SANDBOX_TOOLS : List String :=
  ["run_shell", "claude_code_edit", "repo_write_commit", "repo_commit", "drive_write"]

/-- Predicate of the static sandbox pre-check (`registry.py` lines 189-195):
the tool is one of the five protected names, the lower-cased argument string
mentions `bible.md` or `safety.py`, and it contains one of the verb markers
`"rm "` (with a trailing space), `"delete"`, `"trash"`. -/
def hardBlockHit (name argsStr : String) : Bool :=
  REGISTRY_SANDBOX_TOOLS.contains name &&
    (let a := pyLower argsStr
     (pyIn "bible.md" a || pyIn "safety.py" a) &&
       (pyIn "rm " a || pyIn "delete" a || pyIn "trash" a))

/-- Message returned by the static sandbox pre-check (`registry.py` line 195). -/
def HARD_BLOCK_MSG : String :=
  "⚠️ CRITICAL SAFETY_VIOLATION: Hardcoded sandbox prevents deletion or modification of BIBLE.md and safety.py."

/-- Behaviour of the registered tool handler on this call, observed from the
environment: it returned `out`, raised a `TypeError`, or raised some other
exception. -/
inductive HandlerOutcome where
  | ok (out : String)
  | typeErr (e : String)
  | exn (e : String)
deriving DecidableEq

/-- Result of one `ToolRegistry.execute` call, together with two trace flags
recording whether the LLM safety gate (`check_safety`) was consulted and
whether the tool handler was invoked. -/
structure ExecTrace where
  result : String
  gateConsulted : Bool
  handlerInvoked : Bool
deriving DecidableEq

/-- Shallow embedding of `ToolRegistry.execute` (`registry.py` lines 184-212).
`registered` records whether `name` is in `self._entries` (whose joined key
listing is `available`); `argsStr` is Python's `str(args)`; `fast` and `deep`
are the safety LLM outcomes consumed by `check_safety`; `handler` is the
observed behaviour of the entry's handler. -/
def execute (registered : Bool) (available : String) (name argsStr : String)
    (fast deep : ParseOutcome) (handler : HandlerOutcome) : ExecTrace :=
  if registered = false then
    { result := "⚠️ Unknown tool: " ++ name ++ ". Available: " ++ available,
      gateConsulted := false, handlerInvoked := false }
  else if hardBlockHit name argsStr then
    { result := HARD_BLOCK_MSG, gateConsulted := false, handlerInvoked := false }
  else
    let gate := check_safety name fast deep
    if gate.1 = false then
      { result := gate.2, gateConsulted := true, handlerInvoked := false }
    else
      match handler with
      | .ok out =>
          { result := if gate.2 = "" then out else gate.2 ++ "\n\n---\n" ++ out,
            gateConsulted := true, handlerInvoked := true }
      | .typeErr e =>
          { result := "⚠️ TOOL_ARG_ERROR (" ++ name ++ "): " ++ e,
            gateConsulted := true, handlerInvoked := true }
      | .exn e =>
          { result := "⚠️ TOOL_ERROR (" ++ name ++ "): " ++ e,
            gateConsulted := true, handlerInvoked := true }

/-! ## Message bus (`supervisor/message_bus.py`) -/

/-- Message shapes placed on the agent-to-UI outbox by `send_message`,
`send_chat_action` and `send_photo`.  Photo bytes are irrelevant to the
claims and are elided down to the caption. -/
inductive OutMsg where
  | text (content : String) (markdown : Bool)
  | action (content : String)
  | photo (caption : String)
deriving DecidableEq

/-- State of a `LocalChatBridge` (`message_bus.py` lines 47-142).  The inbox
and outbox are built with `queue.Queue()` (no `maxsize`), the log queue with
`queue.Queue(maxsize=1000)`; all three are FIFO buffers, modelled with the
front of the list as the oldest entry.  Log events are opaque and modelled as
strings. -/
structure LocalChatBridge where
  inbox : List String
  outbox : List OutMsg
  log_queue : List String
  update_counter : Nat
deriving DecidableEq

/-- State produced by `LocalChatBridge.__init__`: all queues empty, update
counter zero. -/
def initBridge : LocalChatBridge :=
  { inbox := [], outbox := [], log_queue := [], update_counter := 0 }

/-- Embedding of `LocalChatBridge.ui_send`: an unconditional `put` on the
unbounded inbox queue. -/
def ui_send (br : LocalChatBridge) (text : String) : LocalChatBridge :=
  { br with inbox := br.inbox ++ [text] }

/-- Embedding of `LocalChatBridge.send_message`: an unconditional `put` on
the unbounded outbox queue.  The regex-based `_strip_markdown` is
environment and passed in as `strip`. -/
def send_message (strip : String → String) (br : LocalChatBridge)
    (_chat_id : Nat) (text : String) (parse_mode : String) :
    LocalChatBridge × Bool × String :=
  let clean := if parse_mode = "" then strip text else text
  let md : Bool := if parse_mode = "" then false else true
  ({ br with outbox := br.outbox ++ [OutMsg.text clean md] }, true, "ok")

/-- Embedding of `LocalChatBridge.send_chat_action`: unconditional `put` on
the outbox. -/
def send_chat_action (br : LocalChatBridge) (_chat_id : Nat) (action : String) :
    LocalChatBridge × Bool :=
  ({ br with outbox := br.outbox ++ [OutMsg.action action] }, true)

/-- Embedding of `LocalChatBridge.send_photo`: unconditional `put` on the
outbox. -/
def send_photo (br : LocalChatBridge) (_chat_id : Nat) (caption : String) :
    LocalChatBridge × Bool × String :=
  ({ br with outbox := br.outbox ++ [OutMsg.photo caption] }, true, "ok")

/-- Embedding of `LocalChatBridge.push_log` (`message_bus.py` lines 106-120),
sequential semantics: `put_nowait` succeeds when the queue holds fewer than
1000 entries; on `queue.Full` the oldest entry is removed with `get_nowait`
and the `put_nowait` is retried, a second `queue.Full` being swallowed. -/
def push_log (br : LocalChatBridge) (event : String) : LocalChatBridge :=
  if br.log_queue.length < 1000 then
    { br with log_queue := br.log_queue ++ [event] }
  else
    let dropped := br.log_queue.tail
    if dropped.length < 1000 then { br with log_queue := dropped ++ [event] }
    else { br with log_queue := dropped }

/-- Telegram-like update shape returned by `LocalChatBridge.get_updates`
(`message_bus.py` lines 57-72): `chat.id` and `from.id` are the literal 1. -/
structure TgUpdate where
  update_id : Nat
  chat_id : Nat
  from_id : Nat
  text : String
deriving DecidableEq

/-- Embedding of `LocalChatBridge.get_updates`: pop one inbox message if any
(the `queue.Empty` timeout path returns the empty list), bump the update
counter to `max offset (counter + 1)`, and wrap the text with chat id 1 and
sender id 1. -/
def get_updates (br : LocalChatBridge) (offset : Nat) :
    LocalChatBridge × List TgUpdate :=
  match br.inbox with
  | [] => (br, [])
  | msg_text :: rest =>
      let counter := max offset (br.update_counter + 1)
      ({ br with inbox := rest, update_counter := counter },
        [{ update_id := counter, chat_id := 1, from_id := 1, text := msg_text }])

/-- Python's `s.rfind("\n", 0, limit)` on a list of characters, as an
`Option`: the greatest index `i < min limit s.length` with `s[i] = '\n'`,
`none` when the search window holds no newline (Python's `-1`). -/
def rfindNL (s : List Char) (limit : Nat) : Option Nat :=
  (List.range (min limit s.length)).foldl
    (fun acc i => if s.get? i = some '\n' then some i else acc) none

/-- Cut position chosen by one `split_message` loop iteration
(`message_bus.py` lines 152-155): the newline found by `rfind`, except that a
missing newline (Python's `-1`) or a position below 100 falls back to
`limit`. -/
def splitCut (s : List Char) (limit : Nat) : Nat :=
  match rfindNL s limit with
  | none => limit
  | some i => if i < 100 then limit else i

/-- Fuel-indexed unfolding of the `while len(s) > limit` loop of
`split_message`.  Each iteration removes `splitCut` characters; fuel
`s.length` suffices whenever `limit ≥ 1` (for `limit = 0` and non-empty
input the Python loop does not terminate). -/
def splitGo : Nat → List Char → Nat → List (List Char)
  | 0, s, _ => [s]
  | fuel + 1, s, limit =>
      if s.length > limit then
        let cut := splitCut s limit
        s.take cut :: splitGo fuel (s.drop cut) limit
      else [s]

/-- Embedding of `split_message` (`message_bus.py` lines 149-159) on the
character-list view of the text. -/
def split_message (s : List Char) (limit : Nat) : List (List Char) :=
  splitGo s.length s limit

/-! ## Supervisor restart handling (`server.py`) -/

/-- Observable supervisor actions performed while handling restarts, in
program order: owner notifications via `send_with_budget`, the
`safe_restart` git contract, `kill_workers`, `save_state`,
`persist_queue_snapshot`, and setting the process-level restart flag
(`_request_restart_exit`). -/
inductive SupAction where
  | sendOwner (text : String)
  | safeRestart (reason : String)
  | killWorkers (force : Bool)
  | saveState
  | persistSnapshot (reason : String)
  | setRestartFlag
deriving DecidableEq

/-- Supervisor-visible restart state: the persisted `session_id` slot of the
state document and the process-level restart-requested flag
(`_restart_requested` in `server.py`). -/
structure SupState where
  session_id : String
  restart_flag : Bool
deriving DecidableEq

/-- Embedding of `_handle_restart_in_supervisor` (`server.py` lines 358-378).
Environment arguments: `ownerChat` is `state.get("owner_chat_id")`,
`safeRestartOk` the first component of `ctx.safe_restart(...)`, `safeMsg` its
message, and `freshId` the `uuid.uuid4().hex` value drawn for the rotation.
On success the session id is rotated and state plus queue snapshot are
persisted before the restart flag is set. -/
def handleRestartEvent (ownerChat : Option Nat) (reason : String)
    (safeRestartOk : Bool) (safeMsg : String) (freshId : String)
    (st : SupState) : SupState × List SupAction :=
  let notify : List SupAction :=
    match ownerChat with
    | some _ => [SupAction.sendOwner ("♻️ Restart requested by agent: " ++ reason)]
    | none => []
  if safeRestartOk then
    ({ st with session_id := freshId, restart_flag := true },
      notify ++
        [SupAction.safeRestart "agent_restart_request", SupAction.killWorkers false,
          SupAction.saveState, SupAction.persistSnapshot "pre_restart_exit",
          SupAction.setRestartFlag])
  else
    (st, notify ++ [SupAction.safeRestart "agent_restart_request"] ++
      (match ownerChat with
       | some _ => [SupAction.sendOwner ("⚠️ Restart skipped: " ++ safeMsg)]
       | none => []))

/-- Embedding of the `/restart` command branch of the supervisor main loop
(`server.py` lines 291-298): announce, `safe_restart`, then on success kill
workers and set the restart flag; on refusal announce the cancellation.  No
session rotation and no snapshot persistence happen on this path. -/
def handleRestartCmd (safeRestartOk : Bool) (safeMsg : String) (st : SupState) :
    SupState × List SupAction :=
  if safeRestartOk then
    ({ st with restart_flag := true },
      [SupAction.sendOwner "♻️ Restarting (soft).",
        SupAction.safeRestart "owner_restart", SupAction.killWorkers false,
        SupAction.setRestartFlag])
  else
    (st,
      [SupAction.sendOwner "♻️ Restarting (soft).",
        SupAction.safeRestart "owner_restart",
        SupAction.sendOwner ("⚠️ Restart cancelled: " ++ safeMsg)])

/-- Embedding of the `/panic` command branch of the supervisor main loop
(`server.py` lines 287-290): announce, force-kill workers, set the restart
flag.  No session rotation and no snapshot persistence happen on this
path. -/
def handlePanicCmd (st : SupState) : SupState × List SupAction :=
  ({ st with restart_flag := true },
    [SupAction.sendOwner "🛑 PANIC: stopping everything now.",
      SupAction.killWorkers true, SupAction.setRestartFlag])

/-! ## Owner registration (`server.py` main loop) -/

/-- Slice of the persisted state document touched by inbound-message
processing. -/
structure OwnerState where
  owner_id : Option Nat
  owner_chat_id : Option Nat
  last_owner_message_at : String
deriving DecidableEq

/-- Embedding of the owner-registration step of the supervisor main loop
(`server.py` lines 268-281): `chat_id` and `user_id` are the literal 1 for
every bridge update; when `owner_id` is unset both owner fields are set,
otherwise they are left untouched; `last_owner_message_at` is always
refreshed. -/
def processInbound (st : OwnerState) (now_iso : String) : OwnerState :=
  let st1 :=
    if st.owner_id = none then
      { st with owner_id := some 1, owner_chat_id := some 1 }
    else st
  { st1 with last_owner_message_at := now_iso }

/-! ## Supervisor main-loop crash handling (`server.py` lines 239-355) -/

/-- Outcome of one supervisor main-loop iteration: the `try` body ran to
completion, or some exception was raised inside it (every exception is
caught by the `except Exception` arm). -/
inductive IterOutcome where
  | ok
  | crash
deriving DecidableEq

/-- Result of one iteration's crash bookkeeping: whether the loop returned
(halted), the consecutive crash counter afterwards, and the back-off sleep
in seconds taken in the except arm (if any). -/
structure LoopStep where
  halted : Bool
  crash_count : Nat
  backoff : Option Nat
deriving DecidableEq

/-- Embedding of the crash bookkeeping of the supervisor main loop
(`server.py` lines 346-355): a completed iteration resets the counter; a
crashing iteration increments it, halts at 3, and otherwise sleeps
`min(30, 2 ** crash_count)` seconds. -/
def supervisorStep (crash_count : Nat) (o : IterOutcome) : LoopStep :=
  match o with
  | .ok => { halted := false, crash_count := 0, backoff := none }
  | .crash =>
      let c := crash_count + 1
      if 3 ≤ c then { halted := true, crash_count := c, backoff := none }
      else { halted := false, crash_count := c, backoff := some (min 30 (2 ^ c)) }

/-- Iterated crash bookkeeping over a sequence of iteration outcomes:
`true` when the loop halts within the sequence. -/
def supervisorRun (crash_count : Nat) : List IterOutcome → Bool
  | [] => false
  | o :: rest =>
      let s := supervisorStep crash_count o
      if s.halted then true else supervisorRun s.crash_count rest

/-! ## Restart exit-code contract (`server.py` `__main__`, `launcher.py`,
`ouroboros/config.py`) -/

/-- Distinguished restart exit status; the literal 42 is defined identically
in `ouroboros/config.py` line 30, `server.py` line 59 and `launcher.py`
line 38. -/
def RESTART_EXIT_CODE : Int := 42

/-- Exit code of the server process (`server.py` lines 682-698): when the
restart flag is set at shutdown the process hard-exits with
`RESTART_EXIT_CODE`; otherwise the script falls off the end of `__main__`
and the interpreter exits with 0. -/
def serverExitCode (restart_requested : Bool) : Int :=
  if restart_requested then RESTART_EXIT_CODE else 0

/-- Crash ceiling of the launcher lifecycle loop (`launcher.py` line 40). -/
def MAX_CRASH_RESTARTS : Nat := 5

/-- Rolling crash window of the launcher lifecycle loop (`launcher.py`
line 41), in seconds. -/
def CRASH_WINDOW_SEC : Nat := 120

/-- Decision taken by one turn of `agent_lifecycle_loop` after the agent
process exits: whether the loop spawns the agent again, the crash-time list
afterwards, and whether the loop broke out at the crash ceiling. -/
structure LifecycleResult where
  respawn : Bool
  crash_times : List Nat
  halted : Bool
deriving DecidableEq

/-- Embedding of the tail of one `agent_lifecycle_loop` iteration
(`launcher.py` lines 383-417), from `proc.wait()` on: on the shutdown event
the loop breaks; an exit code equal to `RESTART_EXIT_CODE` loops again
without touching the crash-time list; any other exit code is appended to the
crash-time list, the list is pruned to the rolling window, and the loop
breaks when the ceiling is reached, otherwise re-spawns after a 3 s sleep. -/
def lifecycleStep (shutdown : Bool) (exit_code : Int) (now : Nat)
    (crash_times : List Nat) : LifecycleResult :=
  if shutdown then
    { respawn := false, crash_times := crash_times, halted := false }
  else if exit_code = RESTART_EXIT_CODE then
    { respawn := true, crash_times := crash_times, halted := false }
  else
    let ct := (crash_times ++ [now]).filter (fun t => now - t < CRASH_WINDOW_SEC)
    if MAX_CRASH_RESTARTS ≤ ct.length then
      { respawn := false, crash_times := ct, halted := true }
    else
      { respawn := true, crash_times := ct, halted := false }

/-- Iterated `ui_send` of a fixed message, used to exhibit unbounded growth
of the inbox queue. -/
def uiSendIter : Nat → LocalChatBridge → LocalChatBridge
  | 0, br => br
  | n + 1, br => ui_send (uiSendIter n br) "x"

/-! ## Helper lemmas -/

theorem str_pre_extract (P M r B : String) :
    ∃ t, ((P ++ M) ++ r ++ B) = P ++ t :=
  ⟨(M ++ r) ++ B, by simp [String.append_assoc]⟩

theorem deepCheck_safe (status reason : String) (hs : pyUpper status = "SAFE") :
    deepCheck (ParseOutcome.parsed status reason) = (true, "") := by
  simp only [deepCheck]
  rw [if_pos hs]

theorem deepCheck_susp (status reason : String) (hs : pyUpper status = "SUSPICIOUS") :
    deepCheck (ParseOutcome.parsed status reason) =
      (true,
        "⚠️ SAFETY_WARNING: The Safety Supervisor flagged this action as suspicious.\nReason: "
          ++ reason
          ++ "\nThe command was allowed, but consider whether this is the right approach.") := by
  have hne : ¬ pyUpper status = "SAFE" := by rw [hs]; decide
  simp only [deepCheck]
  rw [if_neg hne, if_pos hs]

theorem deepCheck_danger (status reason : String)
    (h1 : pyUpper status ≠ "SAFE") (h2 : pyUpper status ≠ "SUSPICIOUS") :
    deepCheck (ParseOutcome.parsed status reason) =
      (false,
        "⚠️ SAFETY_VIOLATION: The Safety Supervisor blocked this command.\nReason: "
          ++ reason
          ++ "\n\nYou must find a different, safer approach to achieve your goal.") := by
  simp only [deepCheck]
  rw [if_neg h1, if_neg h2]

theorem deepCheck_false_viol (deep : ParseOutcome)
    (hf : (deepCheck deep).1 = false) :
    ∃ t, (deepCheck deep).2 = "⚠️ SAFETY_VIOLATION" ++ t := by
  match deep with
  | ParseOutcome.exn e =>
      refine ⟨": Safety check failed with error: " ++ e, ?_⟩
      show ("⚠️ SAFETY_VIOLATION: Safety check failed with error: " ++ e)
        = "⚠️ SAFETY_VIOLATION" ++ (": Safety check failed with error: " ++ e)
      rw [← String.append_assoc]
      rfl
  | ParseOutcome.unparseable =>
      exact ⟨": Safety Supervisor returned unparseable response.", rfl⟩
  | ParseOutcome.parsed status reason =>
      by_cases h1 : pyUpper status = "SAFE"
      · rw [deepCheck_safe status reason h1] at hf
        simp at hf
      · by_cases h2 : pyUpper status = "SUSPICIOUS"
        · rw [deepCheck_susp status reason h2] at hf
          simp at hf
        · rw [deepCheck_danger status reason h1 h2]
          exact str_pre_extract "⚠️ SAFETY_VIOLATION"
            ": The Safety Supervisor blocked this command.\nReason: " reason
            "\n\nYou must find a different, safer approach to achieve your goal."

theorem check_safety_fast_safe (tool : String) (h : tool ∈ CHECKED_TOOLS)
    (fast : ParseOutcome) (hf : fastSaysSafe fast = true) (deep : ParseOutcome) :
    check_safety tool fast deep = (true, "") := by
  simp [check_safety, h, hf]

theorem check_safety_deep_layer (tool : String) (h : tool ∈ CHECKED_TOOLS)
    (fast : ParseOutcome) (hf : fastSaysSafe fast = false) (deep : ParseOutcome) :
    check_safety tool fast deep = deepCheck deep := by
  simp [check_safety, h, hf]

theorem check_safety_false_viol (tool : String) (fast deep : ParseOutcome)
    (hf : (check_safety tool fast deep).1 = false) :
    ∃ t, (check_safety tool fast deep).2 = "⚠️ SAFETY_VIOLATION" ++ t := by
  by_cases hT : tool ∈ CHECKED_TOOLS
  · by_cases hfs : fastSaysSafe fast = true
    · rw [check_safety_fast_safe tool hT fast hfs deep] at hf
      simp at hf
    · rw [check_safety_deep_layer tool hT fast (Bool.eq_false_iff.mpr hfs) deep] at hf ⊢
      exact deepCheck_false_viol deep hf
  · simp [check_safety, hT] at hf

/-! ## Claim theorems -/

/-- C1: for a tool in the CHECKED set, a parsed fast verdict of SAFE yields
`(true, "")` with the deep outcome never consulted; on any other fast outcome
the deep verdict decides the result: SAFE allows silently, SUSPICIOUS allows
with a string starting `"⚠️ SAFETY_WARNING"`, and DANGEROUS, any unrecognised
status, unparseable JSON or an exception blocks with a string starting
`"⚠️ SAFETY_VIOLATION"`. -/
theorem check_safety_two_layer (tool : String) (h : tool ∈ CHECKED_TOOLS)
    (fast deep : ParseOutcome) :
    (fastSaysSafe fast = true →
      ∀ d : ParseOutcome, check_safety tool fast d = (true, "")) ∧
    (fastSaysSafe fast = false →
      (∀ status reason, deep = ParseOutcome.parsed status reason →
        (pyUpper status = "SAFE" → check_safety tool fast deep = (true, "")) ∧
        (pyUpper status = "SUSPICIOUS" →
          ∃ t, check_safety tool fast deep = (true, "⚠️ SAFETY_WARNING" ++ t)) ∧
        (pyUpper status ≠ "SAFE" → pyUpper status ≠ "SUSPICIOUS" →
          ∃ t, check_safety tool fast deep = (false, "⚠️ SAFETY_VIOLATION" ++ t))) ∧
      (deep = ParseOutcome.unparseable →
        ∃ t, check_safety tool fast deep = (false, "⚠️ SAFETY_VIOLATION" ++ t)) ∧
      (∀ e, deep = ParseOutcome.exn e →
        ∃ t, check_safety tool fast deep = (false, "⚠️ SAFETY_VIOLATION" ++ t))) := by
  constructor
  · intro hf d
    exact check_safety_fast_safe tool h fast hf d
  · intro hf
    have hcs : check_safety tool fast deep = deepCheck deep :=
      check_safety_deep_layer tool h fast hf deep
    refine ⟨?_, ?_, ?_⟩
    · intro status reason hd
      subst hd
      refine ⟨?_, ?_, ?_⟩
      · intro hs
        rw [hcs, deepCheck_safe status reason hs]
      · intro hs
        rw [hcs, deepCheck_susp status reason hs]
        obtain ⟨t, ht⟩ := str_pre_extract "⚠️ SAFETY_WARNING"
          ": The Safety Supervisor flagged this action as suspicious.\nReason: " reason
          "\nThe command was allowed, but consider whether this is the right approach."
        exact ⟨t, by rw [← ht]; rfl⟩
      · intro h1 h2
        rw [hcs, deepCheck_danger status reason h1 h2]
        obtain ⟨t, ht⟩ := str_pre_extract "⚠️ SAFETY_VIOLATION"
          ": The Safety Supervisor blocked this command.\nReason: " reason
          "\n\nYou must find a different, safer approach to achieve your goal."
        exact ⟨t, by rw [← ht]; rfl⟩
    · intro hd
      subst hd
      rw [hcs]
      exact ⟨": Safety Supervisor returned unparseable response.", rfl⟩
    · intro e hd
      subst hd
      rw [hcs]
      refine ⟨": Safety check failed with error: " ++ e, ?_⟩
      show (false, "⚠️ SAFETY_VIOLATION: Safety check failed with error: " ++ e)
        = (false, "⚠️ SAFETY_VIOLATION" ++ (": Safety check failed with error: " ++ e))
      rw [← String.append_assoc]
      rfl

/-- Witness for C1: `run_shell` is checked, and a fast SAFE verdict allows
the call with no annotation even when the deep outcome would be fatal. -/
theorem check_safety_two_layer_witness :
    ("run_shell" ∈ CHECKED_TOOLS) ∧
    check_safety "run_shell" (ParseOutcome.parsed "safe" "ok") ParseOutcome.unparseable
      = (true, "") :=
  ⟨by decide,
    (check_safety_two_layer "run_shell" (by decide)
        (ParseOutcome.parsed "safe" "ok") ParseOutcome.unparseable).1
      (by decide) ParseOutcome.unparseable⟩

/-- C2: for a registered tool in `CHECKED_TOOLS` whose arguments do not trip
the static pre-check, `ToolRegistry.execute` consults the safety gate before
the handler (the handler runs only if the gate was consulted); a gate verdict
`(false, msg)` suppresses the handler and returns `msg`, which starts with
`"⚠️ SAFETY_VIOLATION"`; a gate verdict `(true, w)` with non-empty `w`
prepends `w` to the handler's output. -/
theorem execute_consults_gate (name : String) (_h : name ∈ CHECKED_TOOLS)
    (available argsStr : String) (hb : hardBlockHit name argsStr = false)
    (fast deep : ParseOutcome) (handler : HandlerOutcome) :
    ((execute true available name argsStr fast deep handler).handlerInvoked = true →
      (execute true available name argsStr fast deep handler).gateConsulted = true) ∧
    ((check_safety name fast deep).1 = false →
      (execute true available name argsStr fast deep handler).result
          = (check_safety name fast deep).2 ∧
      (execute true available name argsStr fast deep handler).handlerInvoked = false ∧
      ∃ t, (check_safety name fast deep).2 = "⚠️ SAFETY_VIOLATION" ++ t) ∧
    (∀ w out, check_safety name fast deep = (true, w) → w ≠ "" →
      handler = HandlerOutcome.ok out →
      (execute true available name argsStr fast deep handler).result
        = w ++ "\n\n---\n" ++ out) := by
  by_cases hg : (check_safety name fast deep).1 = false
  · have hE : execute true available name argsStr fast deep handler =
        { result := (check_safety name fast deep).2,
          gateConsulted := true, handlerInvoked := false } := by
      simp [execute, hb, hg]
    refine ⟨by simp [hE], ?_, ?_⟩
    · intro _
      exact ⟨by rw [hE], by rw [hE], check_safety_false_viol name fast deep hg⟩
    · intro w out hw _ _
      rw [hw] at hg
      simp at hg
  · refine ⟨?_, ?_, ?_⟩
    · intro _
      cases handler <;> simp [execute, hb, hg]
    · intro hg'
      exact absurd hg' hg
    · intro w out hw hwne hh
      subst hh
      have h2 : (check_safety name fast deep).2 = w := by rw [hw]
      simp [execute, hb, hg, h2, hwne]

/-- Witness for C2: on `run_shell` with innocuous arguments, a fast
DANGEROUS and deep SUSPICIOUS verdict yields the warning string prepended to
the handler output. -/
theorem execute_consults_gate_witness :
    ("run_shell" ∈ CHECKED_TOOLS) ∧
    hardBlockHit "run_shell" "command: ls" = false ∧
    (execute true "" "run_shell" "command: ls" (ParseOutcome.parsed "DANGEROUS" "x")
        (ParseOutcome.parsed "SUSPICIOUS" "y") (HandlerOutcome.ok "OUT")).result
      = "⚠️ SAFETY_WARNING: The Safety Supervisor flagged this action as suspicious.\nReason: y\nThe command was allowed, but consider whether this is the right approach."
          ++ "\n\n---\n" ++ "OUT" :=
  ⟨by decide, by decide,
    (execute_consults_gate "run_shell" (by decide) "" "command: ls" (by decide)
        (ParseOutcome.parsed "DANGEROUS" "x") (ParseOutcome.parsed "SUSPICIOUS" "y")
        (HandlerOutcome.ok "OUT")).2.2
      "⚠️ SAFETY_WARNING: The Safety Supervisor flagged this action as suspicious.\nReason: y\nThe command was allowed, but consider whether this is the right approach."
      "OUT" (by decide) (by decide) rfl⟩

/-- C3 counterexample: the arguments `"command: remove BIBLE.md"` mention
`BIBLE.md` and contain the delete-synonym verb `remove`, yet the static
pre-check does not fire — the LLM gate is consulted and the handler runs.
The code only matches the markers `"rm "`, `"delete"` and `"trash"`, not
`"remove"`. -/
theorem static_block_missing_remove_verb :
    hardBlockHit "run_shell" "command: remove BIBLE.md" = false ∧
    (execute true "" "run_shell" "command: remove BIBLE.md"
        (ParseOutcome.parsed "SAFE" "") (ParseOutcome.parsed "SAFE" "")
        (HandlerOutcome.ok "done")).gateConsulted = true ∧
    (execute true "" "run_shell" "command: remove BIBLE.md"
        (ParseOutcome.parsed "SAFE" "") (ParseOutcome.parsed "SAFE" "")
        (HandlerOutcome.ok "done")).handlerInvoked = true ∧
    (execute true "" "run_shell" "command: remove BIBLE.md"
        (ParseOutcome.parsed "SAFE" "") (ParseOutcome.parsed "SAFE" "")
        (HandlerOutcome.ok "done")).result = "done" := by
  decide

/-- C3 amended: for a tool in the protected tuple whose lower-cased argument
string mentions `bible.md` or `safety.py` and contains one of the literal
markers `"rm "` (with a trailing space), `"delete"` or `"trash"`,
`ToolRegistry.execute` returns the hard-block violation string without
consulting the LLM gate and without invoking the handler. -/
theorem execute_static_block_amended (name available argsStr : String)
    (fast deep : ParseOutcome) (handler : HandlerOutcome)
    (hname : name ∈ REGISTRY_SANDBOX_TOOLS)
    (hfile : pyIn "bible.md" (pyLower argsStr) = true ∨
      pyIn "safety.py" (pyLower argsStr) = true)
    (hverb : pyIn "rm " (pyLower argsStr) = true ∨
      pyIn "delete" (pyLower argsStr) = true ∨
      pyIn "trash" (pyLower argsStr) = true) :
    execute true available name argsStr fast deep handler =
      { result := HARD_BLOCK_MSG, gateConsulted := false, handlerInvoked := false } := by
  have hhb : hardBlockHit name argsStr = true := by
    unfold hardBlockHit
    simp only [Bool.and_eq_true, Bool.or_eq_true]
    refine ⟨List.elem_eq_true_of_mem hname, ?_, ?_⟩
    · rcases hfile with hx | hx
      · exact Or.inl hx
      · exact Or.inr hx
    · rcases hverb with hx | hx | hx
      · exact Or.inl (Or.inl hx)
      · exact Or.inl (Or.inr hx)
      · exact Or.inr hx
  simp [execute, hhb]

/-- Witness for C3's amended claim: `rm safety.py` through `run_shell` is
hard-blocked with no gate consultation and no handler invocation. -/
theorem execute_static_block_amended_witness :
    ("run_shell" ∈ REGISTRY_SANDBOX_TOOLS) ∧
    pyIn "safety.py" (pyLower "command: rm safety.py") = true ∧
    pyIn "rm " (pyLower "command: rm safety.py") = true ∧
    execute true "" "run_shell" "command: rm safety.py"
        (ParseOutcome.parsed "SAFE" "") (ParseOutcome.parsed "SAFE" "")
        (HandlerOutcome.ok "x")
      = { result := HARD_BLOCK_MSG, gateConsulted := false, handlerInvoked := false } :=
  ⟨by decide, by decide, by decide,
    execute_static_block_amended "run_shell" "" "command: rm safety.py"
      (ParseOutcome.parsed "SAFE" "") (ParseOutcome.parsed "SAFE" "")
      (HandlerOutcome.ok "x") (by decide) (Or.inr (by decide)) (Or.inl (by decide))⟩

/-- C4 counterexample: the `/panic` path is an accepted restart, yet it sets
the restart-exit flag with `session_id` left unrotated and with neither
`save_state` nor `persist_queue_snapshot` among its actions. -/
theorem panic_no_session_rotation :
    (handlePanicCmd { session_id := "s0", restart_flag := false }).1.restart_flag = true ∧
    (handlePanicCmd { session_id := "s0", restart_flag := false }).1.session_id = "s0" ∧
    (handlePanicCmd { session_id := "s0", restart_flag := false }).2 =
      [SupAction.sendOwner "🛑 PANIC: stopping everything now.",
        SupAction.killWorkers true, SupAction.setRestartFlag] := by
  decide

/-- C4 amended: only a restart accepted via a `restart_request` event rotates
`session_id` to the fresh id and persists the state and the queue snapshot
before setting the restart-exit flag; the `/restart` and `/panic` command
paths set the flag (after `safe_restart` or `kill_workers` respectively)
with `session_id` unchanged and no persistence step of their own. -/
theorem restart_rotation_amended (c : Nat) (reason safeMsg freshId restartMsg : String)
    (st : SupState) :
    handleRestartEvent (some c) reason true safeMsg freshId st =
      ({ st with session_id := freshId, restart_flag := true },
        [SupAction.sendOwner ("♻️ Restart requested by agent: " ++ reason),
          SupAction.safeRestart "agent_restart_request", SupAction.killWorkers false,
          SupAction.saveState, SupAction.persistSnapshot "pre_restart_exit",
          SupAction.setRestartFlag]) ∧
    handleRestartCmd true restartMsg st =
      ({ st with restart_flag := true },
        [SupAction.sendOwner "♻️ Restarting (soft).",
          SupAction.safeRestart "owner_restart", SupAction.killWorkers false,
          SupAction.setRestartFlag]) ∧
    handlePanicCmd st =
      ({ st with restart_flag := true },
        [SupAction.sendOwner "🛑 PANIC: stopping everything now.",
          SupAction.killWorkers true, SupAction.setRestartFlag]) := by
  refine ⟨?_, ?_, rfl⟩
  · simp [handleRestartEvent]
  · simp [handleRestartCmd]

/-- C5 counterexample: the user-to-agent inbox has no finite capacity — for
every candidate bound there is a sequence of `ui_send` calls whose buffered,
unconsumed messages exceed it. -/
theorem inbox_unbounded_counterexample :
    ¬ ∃ cap : Nat, ∀ n : Nat, (uiSendIter n initBridge).inbox.length ≤ cap := by
  rintro ⟨cap, hcap⟩
  have hlen : ∀ n : Nat, (uiSendIter n initBridge).inbox.length = n := by
    intro n
    induction n with
    | zero => rfl
    | succ k ih => simp [uiSendIter, ui_send, ih]
  have h := hcap (cap + 1)
  rw [hlen] at h
  omega

/-- Helper invariant: `push_log` keeps the log queue at no more than 1000
entries. -/
theorem push_log_bound (br : LocalChatBridge) (e : String)
    (h : br.log_queue.length ≤ 1000) :
    (push_log br e).log_queue.length ≤ 1000 := by
  unfold push_log
  by_cases hlt : br.log_queue.length < 1000
  · simp only [hlt, if_true, List.length_append, List.length_cons, List.length_nil]
    omega
  · have h1000 : br.log_queue.length = 1000 := by omega
    have htail : br.log_queue.tail.length = 999 := by
      rw [List.length_tail, h1000]
    simp only [hlt, if_false]
    rw [if_pos (by rw [htail]; omega)]
    simp [htail]

/-- C5 amended: the log queue is the only bounded buffer (at most 1000
entries, drop-oldest-on-full); the inbox and outbox are unbounded FIFO
queues on which every send unconditionally appends one entry. -/
theorem message_bus_queues_amended (st : LocalChatBridge) (strip : String → String)
    (cid : Nat) (t pm e : String) (h : st.log_queue.length ≤ 1000) :
    (ui_send st t).inbox = st.inbox ++ [t] ∧
    ((send_message strip st cid t pm).1).outbox.length = st.outbox.length + 1 ∧
    ((send_chat_action st cid t).1).outbox.length = st.outbox.length + 1 ∧
    ((send_photo st cid t).1).outbox.length = st.outbox.length + 1 ∧
    (push_log st e).log_queue.length ≤ 1000 := by
  refine ⟨rfl, ?_, ?_, ?_, push_log_bound st e h⟩
  · simp [send_message]
  · simp [send_chat_action]
  · simp [send_photo]

/-- Witness for C5's amended claim at a concrete bridge state. -/
theorem message_bus_queues_amended_witness :
    (initBridge.log_queue.length ≤ 1000) ∧
    ((ui_send initBridge "hi").inbox = initBridge.inbox ++ ["hi"] ∧
      ((send_message id initBridge 1 "hi" "").1).outbox.length
        = initBridge.outbox.length + 1 ∧
      ((send_chat_action initBridge 1 "hi").1).outbox.length
        = initBridge.outbox.length + 1 ∧
      ((send_photo initBridge 1 "hi").1).outbox.length
        = initBridge.outbox.length + 1 ∧
      (push_log initBridge "hi").log_queue.length ≤ 1000) :=
  ⟨by decide, message_bus_queues_amended initBridge id 1 "hi" "" "hi" (by decide)⟩

/-- Helper: `push_log` over any event sequence starting from the empty
bridge keeps the bound. -/
theorem push_log_fold_bound (evs : List String) (br : LocalChatBridge)
    (h : br.log_queue.length ≤ 1000) :
    (evs.foldl push_log br).log_queue.length ≤ 1000 := by
  induction evs generalizing br with
  | nil => exact h
  | cons x xs ih => exact ih (push_log br x) (push_log_bound br x h)

/-- Helper: the event just pushed is the most recent (last) entry of the log
queue, provided the bound held beforehand. -/
theorem push_log_last (br : LocalChatBridge) (e : String)
    (h : br.log_queue.length ≤ 1000) :
    (push_log br e).log_queue.getLast? = some e := by
  unfold push_log
  by_cases hlt : br.log_queue.length < 1000
  · simp only [hlt, if_true]
    exact List.getLast?_concat _
  · have h1000 : br.log_queue.length = 1000 := by omega
    have htail : br.log_queue.tail.length = 999 := by
      rw [List.length_tail, h1000]
    simp only [hlt, if_false]
    rw [if_pos (by rw [htail]; omega)]
    exact List.getLast?_concat _

/-- C6: `push_log` is total (never raises); below the bound it appends, at
the bound of 1000 it discards the oldest entry and appends; consequently the
queue never exceeds 1000 entries and always ends with the most recently
pushed event, over any sequence of pushes from the initial bridge. -/
theorem push_log_drop_oldest (br : LocalChatBridge) (e : String)
    (h : br.log_queue.length ≤ 1000) :
    ((push_log br e).log_queue.length ≤ 1000 ∧
      (push_log br e).log_queue.getLast? = some e ∧
      (br.log_queue.length = 1000 →
        (push_log br e).log_queue = br.log_queue.tail ++ [e]) ∧
      (br.log_queue.length < 1000 →
        (push_log br e).log_queue = br.log_queue ++ [e])) ∧
    (∀ evs : List String, ∀ e0 : String,
      ((evs ++ [e0]).foldl push_log initBridge).log_queue.length ≤ 1000 ∧
      ((evs ++ [e0]).foldl push_log initBridge).log_queue.getLast? = some e0) := by
  constructor
  · refine ⟨push_log_bound br e h, push_log_last br e h, ?_, ?_⟩
    · intro h1000
      have hlt : ¬ br.log_queue.length < 1000 := by omega
      have htail : br.log_queue.tail.length = 999 := by
        rw [List.length_tail, h1000]
      unfold push_log
      simp only [hlt, if_false]
      rw [if_pos (by rw [htail]; omega)]
    · intro hlt
      unfold push_log
      simp only [hlt, if_true]
  · intro evs e0
    have hfold : ((evs ++ [e0]).foldl push_log initBridge)
        = push_log (evs.foldl push_log initBridge) e0 := by
      rw [List.foldl_append]
      rfl
    have hb : (evs.foldl push_log initBridge).log_queue.length ≤ 1000 :=
      push_log_fold_bound evs initBridge (by decide)
    rw [hfold]
    exact ⟨push_log_bound _ e0 hb, push_log_last _ e0 hb⟩

/-- Witness for C6 at a concrete bridge state: pushing onto the empty queue
appends and keeps the bound. -/
theorem push_log_drop_oldest_witness :
    (initBridge.log_queue.length ≤ 1000) ∧
    (push_log initBridge "a").log_queue = initBridge.log_queue ++ ["a"] :=
  ⟨by decide,
    ((push_log_drop_oldest initBridge "a" (by decide)).1).2.2.2 (by decide)⟩

/-- C7: with the restart flag set the server exits with the distinguished
code 42 (`RESTART_EXIT_CODE`); the launcher re-spawns on exit code 42
without touching the crash-time list, while any other exit code is appended
to the crash-time list (pruned to the 120 s window) and halts the lifecycle
loop exactly when the 5-crash ceiling is reached. -/
theorem restart_exit_code_contract (code : Int) (now : Nat) (ct : List Nat) :
    serverExitCode true = 42 ∧
    RESTART_EXIT_CODE = 42 ∧
    lifecycleStep false 42 now ct =
      { respawn := true, crash_times := ct, halted := false } ∧
    (code ≠ 42 →
      (lifecycleStep false code now ct).crash_times =
        (ct ++ [now]).filter (fun t => now - t < CRASH_WINDOW_SEC) ∧
      now ∈ (lifecycleStep false code now ct).crash_times ∧
      (MAX_CRASH_RESTARTS ≤
          ((ct ++ [now]).filter (fun t => now - t < CRASH_WINDOW_SEC)).length →
        lifecycleStep false code now ct =
          { respawn := false,
            crash_times := (ct ++ [now]).filter (fun t => now - t < CRASH_WINDOW_SEC),
            halted := true }) ∧
      (((ct ++ [now]).filter (fun t => now - t < CRASH_WINDOW_SEC)).length <
          MAX_CRASH_RESTARTS →
        lifecycleStep false code now ct =
          { respawn := true,
            crash_times := (ct ++ [now]).filter (fun t => now - t < CRASH_WINDOW_SEC),
            halted := false })) := by
  refine ⟨rfl, rfl, by simp [lifecycleStep, RESTART_EXIT_CODE], ?_⟩
  intro h
  have hne : ¬ code = RESTART_EXIT_CODE := by
    rw [RESTART_EXIT_CODE]
    exact h
  have hmem : now ∈ (ct ++ [now]).filter (fun t => now - t < CRASH_WINDOW_SEC) := by
    refine List.mem_filter.mpr ⟨List.mem_append_right ct (List.mem_singleton.mpr rfl), ?_⟩
    simp [CRASH_WINDOW_SEC]
  by_cases hceil : MAX_CRASH_RESTARTS ≤
      ((ct ++ [now]).filter (fun t => now - t < CRASH_WINDOW_SEC)).length
  · have hstep : lifecycleStep false code now ct =
        { respawn := false,
          crash_times := (ct ++ [now]).filter (fun t => now - t < CRASH_WINDOW_SEC),
          halted := true } := by
      simp only [lifecycleStep, Bool.false_eq_true, if_false]
      rw [if_neg hne, if_pos hceil]
    refine ⟨by rw [hstep], by rw [hstep]; exact hmem, fun _ => hstep, ?_⟩
    intro hlt
    omega
  · have hstep : lifecycleStep false code now ct =
        { respawn := true,
          crash_times := (ct ++ [now]).filter (fun t => now - t < CRASH_WINDOW_SEC),
          halted := false } := by
      simp only [lifecycleStep, Bool.false_eq_true, if_false]
      rw [if_neg hne, if_neg hceil]
    refine ⟨by rw [hstep], by rw [hstep]; exact hmem, ?_, fun _ => hstep⟩
    intro hge
    exact absurd hge hceil


/-- Witness for C7: a crash exit (code 1) at time 0 with an empty crash
history is counted and re-spawned below the ceiling. -/
theorem restart_exit_code_contract_witness :
    ((1 : Int) ≠ 42) ∧
    ((([] : List Nat) ++ [0]).filter (fun t => 0 - t < CRASH_WINDOW_SEC)).length
        < MAX_CRASH_RESTARTS ∧
    lifecycleStep false 1 0 [] =
      { respawn := true,
        crash_times := (([] : List Nat) ++ [0]).filter (fun t => 0 - t < CRASH_WINDOW_SEC),
        halted := false } :=
  ⟨by decide, by decide,
    ((restart_exit_code_contract 1 0 []).2.2.2 (by decide)).2.2.2 (by decide)⟩

/-- C8: the supervisor main loop's crash bookkeeping — a completed iteration
resets the consecutive crash counter to zero; a crash below the ceiling is
followed by a back-off of `min 30 (2 ^ n)` seconds where `n` is the new
consecutive crash count; the third consecutive crash halts the loop, as a
run with three leading crashes shows. -/
theorem supervisor_crash_handling (c : Nat) (rest : List IterOutcome) :
    supervisorStep c IterOutcome.ok =
      { halted := false, crash_count := 0, backoff := none } ∧
    (c + 1 < 3 →
      supervisorStep c IterOutcome.crash =
        { halted := false, crash_count := c + 1,
          backoff := some (min 30 (2 ^ (c + 1))) }) ∧
    (3 ≤ c + 1 →
      supervisorStep c IterOutcome.crash =
        { halted := true, crash_count := c + 1, backoff := none }) ∧
    supervisorRun 0
      (IterOutcome.crash :: IterOutcome.crash :: IterOutcome.crash :: rest) = true := by
  refine ⟨rfl, ?_, ?_, ?_⟩
  · intro hlt
    have hn : ¬ 3 ≤ c + 1 := by omega
    simp [supervisorStep, hn]
  · intro hge
    simp [supervisorStep, hge]
  · simp [supervisorRun, supervisorStep]

/-- Witness for C8: from a clean state the first crash backs off for
`min 30 2 = 2` seconds. -/
theorem supervisor_crash_handling_witness :
    ((0 : Nat) + 1 < 3) ∧
    supervisorStep 0 IterOutcome.crash =
      { halted := false, crash_count := 0 + 1,
        backoff := some (min 30 (2 ^ (0 + 1))) } :=
  ⟨by decide, (supervisor_crash_handling 0 []).2.1 (by decide)⟩

/-- C9: processing an inbound message sets `owner_id` and `owner_chat_id`
(both to 1, the ids carried by every bridge update) exactly when `owner_id`
was previously unset, and leaves both untouched otherwise. -/
theorem owner_registration (st : OwnerState) (now : String)
    (br : LocalChatBridge) (off : Nat) :
    (st.owner_id = none →
      (processInbound st now).owner_id = some 1 ∧
      (processInbound st now).owner_chat_id = some 1) ∧
    (st.owner_id ≠ none →
      (processInbound st now).owner_id = st.owner_id ∧
      (processInbound st now).owner_chat_id = st.owner_chat_id) ∧
    (∀ u ∈ (get_updates br off).2, u.chat_id = 1 ∧ u.from_id = 1) := by
  refine ⟨?_, ?_, ?_⟩
  · intro hnone
    simp [processInbound, hnone]
  · intro hsome
    simp [processInbound, hsome]
  · intro u hu
    match hbr : br.inbox with
    | [] =>
        unfold get_updates at hu
        rw [hbr] at hu
        simp at hu
    | m :: rest =>
        unfold get_updates at hu
        rw [hbr] at hu
        simp only [List.mem_singleton] at hu
        subst hu
        exact ⟨rfl, rfl⟩

/-- Witness for C9: a first inbound message on the empty state registers the
owner ids as 1. -/
theorem owner_registration_witness :
    (({ owner_id := none, owner_chat_id := none, last_owner_message_at := "" } :
        OwnerState).owner_id = none) ∧
    (processInbound
        { owner_id := none, owner_chat_id := none, last_owner_message_at := "" }
        "t1").owner_id = some 1 ∧
    (processInbound
        { owner_id := none, owner_chat_id := none, last_owner_message_at := "" }
        "t1").owner_chat_id = some 1 :=
  ⟨rfl,
    ((owner_registration
        { owner_id := none, owner_chat_id := none, last_owner_message_at := "" }
        "t1" initBridge 0).1 rfl).1,
    ((owner_registration
        { owner_id := none, owner_chat_id := none, last_owner_message_at := "" }
        "t1" initBridge 0).1 rfl).2⟩

/-- Helper: the fold inside `rfindNL` only ever returns indices drawn from
the scanned range. -/
theorem rfind_fold_lt (s : List Char) (m : Nat) :
    ∀ (l : List Nat) (acc : Option Nat),
      (∀ x ∈ l, x < m) → (∀ j, acc = some j → j < m) →
      ∀ j, l.foldl (fun a i => if s.get? i = some '\n' then some i else a) acc
          = some j → j < m := by
  intro l
  induction l with
  | nil =>
      intro acc _ hacc j hj
      exact hacc j hj
  | cons x xs ih =>
      intro acc hl hacc j hj
      simp only [List.foldl_cons] at hj
      refine ih _ (fun y hy => hl y (List.mem_cons_of_mem x hy)) ?_ j hj
      intro k hk
      by_cases hx : s.get? x = some '\n'
      · rw [if_pos hx] at hk
        obtain rfl : x = k := Option.some.inj hk
        exact hl x (List.mem_cons_self x xs)
      · rw [if_neg hx] at hk
        exact hacc k hk

/-- Helper: a found newline index lies inside the search window. -/
theorem rfindNL_lt (s : List Char) (limit i : Nat)
    (h : rfindNL s limit = some i) : i < min limit s.length := by
  unfold rfindNL at h
  exact rfind_fold_lt s (min limit s.length) (List.range (min limit s.length)) none
    (fun x hx => List.mem_range.mp hx) (fun j hj => Option.noConfusion hj) i h

/-- Helper: the chosen cut is at least 1 whenever the limit is. -/
theorem splitCut_pos (s : List Char) (limit : Nat) (hl : 1 ≤ limit) :
    1 ≤ splitCut s limit := by
  unfold splitCut
  rcases hr : rfindNL s limit with _ | i
  · exact hl
  · by_cases hi : i < 100
    · simp only [hi, if_true]
      exact hl
    · simp only [hi, if_false]
      omega

/-- Helper: the chosen cut never exceeds the limit. -/
theorem splitCut_le (s : List Char) (limit : Nat) :
    splitCut s limit ≤ limit := by
  unfold splitCut
  rcases hr : rfindNL s limit with _ | i
  · exact le_rfl
  · have hi := rfindNL_lt s limit i hr
    by_cases h100 : i < 100
    · simp only [h100, if_true]
      exact le_rfl
    · simp only [h100, if_false]
      omega

/-- Helper: with fuel at least the text length and a positive limit, the
loop unfolding of `split_message` returns a non-empty chunk list whose
concatenation is the input and whose chunks respect the limit. -/
theorem splitGo_spec (limit : Nat) (hl : 1 ≤ limit) :
    ∀ (fuel : Nat) (s : List Char), s.length ≤ fuel →
      (splitGo fuel s limit ≠ [] ∧
        (splitGo fuel s limit).flatten = s ∧
        ∀ c ∈ splitGo fuel s limit, c.length ≤ limit) := by
  intro fuel
  induction fuel with
  | zero =>
      intro s hs
      have hnil : s = [] := List.length_eq_zero.mp (Nat.le_zero.mp hs)
      subst hnil
      refine ⟨by simp [splitGo], by simp [splitGo], ?_⟩
      intro c hc
      simp only [splitGo, List.mem_singleton] at hc
      subst hc
      simp
  | succ n ih =>
      intro s hs
      by_cases hlen : s.length > limit
      · have h1 : 1 ≤ splitCut s limit := splitCut_pos s limit hl
        have h2 : splitCut s limit ≤ limit := splitCut_le s limit
        have hdrop : (s.drop (splitCut s limit)).length ≤ n := by
          rw [List.length_drop]
          omega
        obtain ⟨ha, hb, hc⟩ := ih (s.drop (splitCut s limit)) hdrop
        have hunf : splitGo (n + 1) s limit =
            s.take (splitCut s limit) :: splitGo n (s.drop (splitCut s limit)) limit := by
          simp [splitGo, hlen]
        refine ⟨by rw [hunf]; exact List.cons_ne_nil _ _, ?_, ?_⟩
        · rw [hunf, List.flatten_cons, hb, List.take_append_drop]
        · intro c hcmem
          rw [hunf] at hcmem
          rcases List.mem_cons.mp hcmem with hh | hh
          · subst hh
            rw [List.length_take]
            omega
          · exact hc c hh
      · have hunf : splitGo (n + 1) s limit = [s] := by simp [splitGo, hlen]
        refine ⟨by rw [hunf]; exact List.cons_ne_nil _ _, by rw [hunf]; simp, ?_⟩
        intro c hcmem
        rw [hunf] at hcmem
        obtain rfl : c = s := List.mem_singleton.mp hcmem
        omega

/-- C10: for every text and every limit of at least 1, `split_message`
terminates (the fuel `s.length` provably suffices) and returns a non-empty
chunk list whose in-order concatenation equals the text and whose every
chunk has length at most the limit. -/
theorem split_message_spec (text : List Char) (limit : Nat) (h : 1 ≤ limit) :
    split_message text limit ≠ [] ∧
    (split_message text limit).flatten = text ∧
    ∀ c ∈ split_message text limit, c.length ≤ limit :=
  splitGo_spec limit h text.length text le_rfl

/-- Witness for C10: splitting a two-character text at limit 1. -/
theorem split_message_spec_witness :
    ((1 : Nat) ≤ 1) ∧
    (split_message ['a', 'b'] 1 ≠ [] ∧
      (split_message ['a', 'b'] 1).flatten = ['a', 'b'] ∧
      ∀ c ∈ split_message ['a', 'b'] 1, c.length ≤ 1) :=
  ⟨by decide, split_message_spec ['a', 'b'] 1 (by decide)⟩

end Ouroboros
